import Mathlib

/- Shallow embedding of the client-side state stores of a browser-based
data-virtualization administration console (a Vue/Pinia frontend).

Modelled source files:
- stores/query.ts        : the query state store (useQueryStore)
- stores/datasources.ts  : the datasource state store (useDatasourcesStore)
- views/MaterializedTables.vue : the pure sqlPreview computed value
- types/index.ts         : the record types shared by both

Each asynchronous store action performs a synchronous prologue, one HTTP
round trip, and a synchronous continuation.  The embedding passes the
outcome of the round trip as an explicit ApiResult argument, so every
action becomes a pure transition on a state record; the synchronous
prologue of an action (the part that runs before the first await) is also
exposed separately as an xxxStart function so that properties about the
busy flag "during" the call can be stated.  JavaScript truthiness on
strings (the empty string is falsy) is modelled by the jsOr helper;
exceptions thrown by the transport are modelled by the JsError record
(detail is e.response?.data?.detail, absent links collapsing to none).
Server-supplied opaque scalars that the client never computes with
(JSON cell values, the server-measured execution time) are modelled at
Int/Nat precision. -/

namespace RoboData

/-- Opaque JSON cell value as delivered by the server; the client renders
cells but never computes with them. -/
inductive Cell where
  | null : Cell
  | str : String → Cell
  | num : Int → Cell
  | boolean : Bool → Cell
deriving Repr, DecidableEq

/-- Error object caught from the transport layer: detail models
e.response?.data?.detail (none when any link of the optional chain is
absent), message models e.message. -/
structure JsError where
  detail : Option String
  message : String
deriving Repr, DecidableEq

/-- JavaScript a || b on strings: the empty string is falsy. -/
def jsOr (a b : String) : String :=
  if a = "" then b else a

/-- The error-message normalization e.response?.data?.detail || e.message
|| fallback used by most catch blocks. -/
def errDetailMsg (e : JsError) (fallback : String) : String :=
  jsOr (e.detail.getD "") (jsOr e.message fallback)

/-- The error-message normalization e.message || fallback used by the
catch blocks that do not consult the response detail. -/
def errMsgOnly (e : JsError) (fallback : String) : String :=
  jsOr e.message fallback

/-- Outcome of one HTTP round trip: the parsed response body, or the
exception the transport threw. -/
inductive ApiResult (α : Type) where
  | ok : α → ApiResult α
  | err : JsError → ApiResult α
deriving Repr, DecidableEq

/-- QueryResult.type from types/index.ts: "table" | "ok" | "error". -/
inductive QueryResultType where
  | table : QueryResultType
  | ok : QueryResultType
  | error : QueryResultType
deriving Repr, DecidableEq

/-- QueryResult from types/index.ts. -/
structure QueryResult where
  type : QueryResultType
  columns : List String
  data : List (List Cell)
  row_count : Nat
  error : Option String := none
  execution_time : Option Nat := none
deriving Repr, DecidableEq

/-- One entry of queryHistory in stores/query.ts; the Date timestamp is
modelled as a Nat supplied by the caller. -/
structure HistoryEntry where
  query : String
  timestamp : Nat
  success : Bool
deriving Repr, DecidableEq

/-- Model from types/index.ts. -/
structure Model where
  name : String
  status : String
  predict : Option String := none
  engine : Option String := none
deriving Repr, DecidableEq

/-- Job from types/index.ts. -/
structure Job where
  name : String
  schedule : Option String := none
  next_run : Option String := none
deriving Repr, DecidableEq

/-- KnowledgeBase from types/index.ts. -/
structure KnowledgeBase where
  name : String
  model : Option String := none
deriving Repr, DecidableEq

/-- MindsDBStatus from types/index.ts. -/
structure MindsDBStatus where
  connected : Bool
  version : Option String := none
  error : Option String := none
deriving Repr, DecidableEq

/-- The reactive state of useQueryStore (stores/query.ts). -/
structure QueryState where
  currentQuery : String := ""
  queryResult : Option QueryResult := none
  queryHistory : List HistoryEntry := []
  models : List Model := []
  jobs : List Job := []
  knowledgeBases : List KnowledgeBase := []
  status : Option MindsDBStatus := none
  loading : Bool := false
  error : Option String := none
deriving Repr, DecidableEq

/-- Getter lastQueries: queryHistory.value.slice(-10).reverse().
Array.prototype.slice(-10) takes the final min(length,10) elements. -/
def lastQueries (s : QueryState) : List HistoryEntry :=
  ((s.queryHistory.drop (s.queryHistory.length - 10)).reverse)

/-- Action executeQuery(query) of stores/query.ts.  The now argument
stands for the Date constructed at push time; api is the outcome of
queryApi.execute(query).  Returns the updated state and the QueryResult
the action returns to its caller.  The function is total: a transport
failure is absorbed into a synthesized error-kind result, never rethrown. -/
def executeQuery (s : QueryState) (query : String) (now : Nat)
    (api : ApiResult QueryResult) : QueryState × QueryResult :=
  let s0 := { s with loading := true, error := none, currentQuery := query }
  match api with
  | ApiResult.ok res =>
      let s1 := { s0 with
        queryResult := some res,
        queryHistory := s0.queryHistory ++
          [({ query := query, timestamp := now,
              success := res.type != QueryResultType.error } : HistoryEntry)] }
      let s2 :=
        if res.type = QueryResultType.error then
          { s1 with error := some (jsOr (res.error.getD "") "Query execution failed") }
        else s1
      ({ s2 with loading := false }, res)
  | ApiResult.err e =>
      let msg := errDetailMsg e "Failed to execute query"
      let res : QueryResult :=
        { type := QueryResultType.error, columns := [], data := [],
          row_count := 0,
          error := if msg = "" then none else some msg }
      ({ s0 with error := some msg, queryResult := some res, loading := false }, res)

/-- Action fetchModels() of stores/query.ts. -/
def fetchModels (s : QueryState) (api : ApiResult (List Model)) : QueryState :=
  match api with
  | ApiResult.ok ms => { s with models := ms }
  | ApiResult.err e => { s with error := some (errMsgOnly e "Failed to fetch models") }

/-- Action fetchJobs() of stores/query.ts. -/
def fetchJobs (s : QueryState) (api : ApiResult (List Job)) : QueryState :=
  match api with
  | ApiResult.ok js => { s with jobs := js }
  | ApiResult.err e => { s with error := some (errMsgOnly e "Failed to fetch jobs") }

/-- Action fetchKnowledgeBases() of stores/query.ts. -/
def fetchKnowledgeBases (s : QueryState) (api : ApiResult (List KnowledgeBase)) :
    QueryState :=
  match api with
  | ApiResult.ok ks => { s with knowledgeBases := ks }
  | ApiResult.err e =>
      { s with error := some (errMsgOnly e "Failed to fetch knowledge bases") }

/-- The sqlPreview computed value of views/MaterializedTables.vue.  All
six form fields are passed explicitly; limitRows models the
number-or-undefined input (JavaScript treats undefined and 0 as falsy,
hence the guard on some 0). -/
def sqlPreview (tableName selectedDatabase selectedTable : String)
    (selectedColumns : List String) (whereClause : String)
    (limitRows : Option Nat) : String :=
  if tableName = "" ∨ selectedDatabase = "" ∨ selectedTable = "" then
    "-- Fill in the form to generate SQL"
  else
    let cols :=
      if selectedColumns.length > 0 then String.intercalate ", " selectedColumns
      else "*"
    let sql := "CREATE TABLE mindsdb." ++ tableName ++ " AS\nSELECT " ++ cols ++
      "\nFROM " ++ selectedDatabase ++ "." ++ selectedTable
    let sql := if whereClause != "" then sql ++ "\nWHERE " ++ whereClause else sql
    let sql :=
      match limitRows with
      | some n => if n = 0 then sql else sql ++ "\nLIMIT " ++ toString n
      | none => sql
    sql ++ ";"

/-- Field kind of a dynamic connection-form field descriptor:
"text" | "number" | "password" in types/index.ts. -/
inductive FieldKind where
  | text : FieldKind
  | number : FieldKind
  | password : FieldKind
deriving Repr, DecidableEq

/-- DataSourceField from types/index.ts; the string-or-number default is
modelled as a sum. -/
structure DataSourceField where
  name : String
  label : String
  type : FieldKind
  required : Bool
  default : Option (Sum String Int) := none
deriving Repr, DecidableEq

/-- DataSourceTypeConfig from types/index.ts. -/
structure DataSourceTypeConfig where
  type : String
  display_name : String
  icon : String
  fields : List DataSourceField
deriving Repr, DecidableEq

/-- DataSource from types/index.ts. -/
structure DataSource where
  name : String
  engine : String
  tables : List String
deriving Repr, DecidableEq

/-- TableColumn from types/index.ts. -/
structure TableColumn where
  name : String
  type : String
  nullable : Option String := none
  key : Option String := none
deriving Repr, DecidableEq

/-- TableSchema from types/index.ts. -/
structure TableSchema where
  table : String
  columns : List TableColumn
deriving Repr, DecidableEq

/-- TableData from types/index.ts. -/
structure TableData where
  columns : List String
  data : List (List Cell)
  total_rows : Nat
deriving Repr, DecidableEq

/-- The reactive state of useDatasourcesStore (stores/datasources.ts). -/
structure DatasourcesState where
  datasources : List DataSource := []
  datasourceTypes : List DataSourceTypeConfig := []
  selectedDatasource : Option DataSource := none
  tables : List String := []
  selectedTable : Option String := none
  tableSchema : Option TableSchema := none
  tableData : Option TableData := none
  loading : Bool := false
  error : Option String := none
deriving Repr, DecidableEq

/-- The two-line prologue loading.value = true; error.value = null shared
verbatim by fetchDatasources, createDatasource, deleteDatasource,
fetchTables and selectTable. -/
def beginAction (s : DatasourcesState) : DatasourcesState :=
  { s with loading := true, error := none }

/-- Synchronous prologue of fetchTypes(): the function body mutates no
state before its first await, so the prologue is the identity. -/
def fetchTypesStart (s : DatasourcesState) : DatasourcesState := s

/-- Action fetchTypes() of stores/datasources.ts.  Note that it touches
neither loading nor the prior error on the success path. -/
def fetchTypes (s : DatasourcesState)
    (api : ApiResult (List DataSourceTypeConfig)) : DatasourcesState :=
  match api with
  | ApiResult.ok tys => { s with datasourceTypes := tys }
  | ApiResult.err e =>
      { s with error := some (errMsgOnly e "Failed to fetch data source types") }

/-- Synchronous prologue of fetchDatasources(). -/
def fetchDatasourcesStart (s : DatasourcesState) : DatasourcesState := beginAction s

/-- Action fetchDatasources() of stores/datasources.ts. -/
def fetchDatasources (s : DatasourcesState)
    (api : ApiResult (List DataSource)) : DatasourcesState :=
  let s0 := beginAction s
  match api with
  | ApiResult.ok ds => { s0 with datasources := ds, loading := false }
  | ApiResult.err e =>
      { s0 with error := some (errMsgOnly e "Failed to fetch data sources"),
                loading := false }

/-- Synchronous prologue of createDatasource(). -/
def createDatasourceStart (s : DatasourcesState) : DatasourcesState := beginAction s

/-- Action createDatasource(name, engine, parameters) of
stores/datasources.ts.  The three request fields only flow into the HTTP
request; api is the outcome of datasourcesApi.create.  Returns the
updated state and the success boolean handed back to the view. -/
def createDatasource (s : DatasourcesState) (name engine : String)
    (parameters : List (String × String)) (api : ApiResult DataSource) :
    DatasourcesState × Bool :=
  let s0 := beginAction s
  match api with
  | ApiResult.ok d =>
      ({ s0 with datasources := s0.datasources ++ [d], loading := false }, true)
  | ApiResult.err e =>
      ({ s0 with error := some (errDetailMsg e "Failed to create data source"),
                 loading := false }, false)

/-- The test selectedDatasource.value?.name === name. -/
def selectedNameIs (sel : Option DataSource) (name : String) : Bool :=
  match sel with
  | some ds => ds.name == name
  | none => false

/-- Synchronous prologue of deleteDatasource(). -/
def deleteDatasourceStart (s : DatasourcesState) : DatasourcesState := beginAction s

/-- Action deleteDatasource(name) of stores/datasources.ts.  api is the
outcome of datasourcesApi.delete(name) (the acknowledgement message).
Returns the updated state and the success boolean. -/
def deleteDatasource (s : DatasourcesState) (name : String)
    (api : ApiResult String) : DatasourcesState × Bool :=
  let s0 := beginAction s
  match api with
  | ApiResult.ok _ =>
      let s1 := { s0 with
        datasources := s0.datasources.filter (fun ds => ds.name != name) }
      let s2 :=
        if selectedNameIs s1.selectedDatasource name then
          { s1 with selectedDatasource := none, tables := [],
                    selectedTable := none, tableSchema := none, tableData := none }
        else s1
      ({ s2 with loading := false }, true)
  | ApiResult.err e =>
      ({ s0 with error := some (errDetailMsg e "Failed to delete data source"),
                 loading := false }, false)

/-- Synchronous prologue of fetchTables(). -/
def fetchTablesStart (s : DatasourcesState) : DatasourcesState := beginAction s

/-- Action fetchTables(datasourceName) of stores/datasources.ts. -/
def fetchTables (s : DatasourcesState) (datasourceName : String)
    (api : ApiResult (List String)) : DatasourcesState :=
  let s0 := beginAction s
  match api with
  | ApiResult.ok ts => { s0 with tables := ts, loading := false }
  | ApiResult.err e =>
      { s0 with error := some (errDetailMsg e "Failed to fetch tables"),
                tables := [], loading := false }

/-- One HTTP request issued by the datasource store, recorded so that
"no request is issued" is an observable fact of the model. -/
inductive ApiRequest where
  | getTableSchema : String → String → ApiRequest
  | getSampleData : String → String → Nat → ApiRequest
deriving Repr, DecidableEq

/-- Synchronous prologue of selectTable(tableName): nothing happens when
no datasource is selected; otherwise selectedTable is set and the busy
prologue runs. -/
def selectTableStart (s : DatasourcesState) (tableName : String) : DatasourcesState :=
  match s.selectedDatasource with
  | none => s
  | some _ => { (beginAction s) with selectedTable := some tableName }

/-- Action selectTable(tableName) of stores/datasources.ts.  The two
fetches issued through Promise.all are modelled as one joined outcome:
ok carries both responses, err carries the first rejection.  Returns the
updated state together with the list of HTTP requests the call issued. -/
def selectTable (s : DatasourcesState) (tableName : String)
    (api : ApiResult (TableSchema × TableData)) :
    DatasourcesState × List ApiRequest :=
  match s.selectedDatasource with
  | none => (s, [])
  | some ds =>
      let s0 := { (beginAction s) with selectedTable := some tableName }
      let reqs := [ApiRequest.getTableSchema ds.name tableName,
                   ApiRequest.getSampleData ds.name tableName 10]
      match api with
      | ApiResult.ok (sch, dat) =>
          ({ s0 with tableSchema := some sch, tableData := some dat,
                     loading := false }, reqs)
      | ApiResult.err e =>
          ({ s0 with error := some (errDetailMsg e "Failed to fetch table info"),
                     loading := false }, reqs)

/-- One invocation of a catalog-refresh action of the query store together
with the outcome of its HTTP round trip: the dashboard issues fetchModels,
fetchJobs and fetchKnowledgeBases concurrently as a set. -/
inductive CatalogStep where
  | stepModels : ApiResult (List Model) → CatalogStep
  | stepJobs : ApiResult (List Job) → CatalogStep
  | stepKbs : ApiResult (List KnowledgeBase) → CatalogStep
deriving Repr, DecidableEq

/-- Apply one catalog-refresh continuation to the store state.  Because
the execution model is single-threaded, the continuations of a set of
concurrent fetches run one after the other, in the order the responses
arrive. -/
def runCatalogStep (s : QueryState) : CatalogStep → QueryState
  | CatalogStep.stepModels r => fetchModels s r
  | CatalogStep.stepJobs r => fetchJobs s r
  | CatalogStep.stepKbs r => fetchKnowledgeBases s r

/-- Run a sequence of catalog-refresh continuations left to right. -/
def runCatalogSteps (s : QueryState) (steps : List CatalogStep) : QueryState :=
  steps.foldl runCatalogStep s

/-- Whether a catalog step is a fetchModels invocation. -/
def CatalogStep.isModels : CatalogStep → Bool
  | CatalogStep.stepModels _ => true
  | _ => false

/-- Whether a catalog step is a fetchJobs invocation. -/
def CatalogStep.isJobs : CatalogStep → Bool
  | CatalogStep.stepJobs _ => true
  | _ => false

/-- Whether a catalog step is a fetchKnowledgeBases invocation. -/
def CatalogStep.isKbs : CatalogStep → Bool
  | CatalogStep.stepKbs _ => true
  | _ => false

/-- Sample transport error used for concrete instantiations. -/
def eBoom : JsError := { detail := none, message := "network down" }

/-- Sample catalog entry. -/
def dsSample : DataSource := { name := "mysql_db", engine := "mysql", tables := ["orders"] }

/-- Sample table schema. -/
def schSample : TableSchema := { table := "orders", columns := [] }

/-- Sample table data. -/
def datSample : TableData := { columns := [], data := [], total_rows := 0 }

/-- Sample model catalog entry. -/
def mSample : Model := { name := "sales_model", status := "complete" }

/-- Datasource-store state with an active selection. -/
def stateWithSelection : DatasourcesState := { selectedDatasource := some dsSample }

/-- Datasource-store state carrying a stale error from a prior operation. -/
def staleErrorState : DatasourcesState := { error := some "boom" }

/-- Datasource-store state in which the selected source is about to be
deleted. -/
def stateBeforeDelete : DatasourcesState :=
  { datasources := [dsSample], selectedDatasource := some dsSample,
    tables := ["orders"], selectedTable := some "orders",
    tableSchema := some schSample, tableData := some datSample }

lemma jsOr_ne_empty (a b : String) (hb : b ≠ "") : jsOr a b ≠ "" := by
  unfold jsOr
  split
  · exact hb
  · assumption

lemma errDetailMsg_ne_empty (e : JsError) (fallback : String) (hf : fallback ≠ "") :
    errDetailMsg e fallback ≠ "" :=
  jsOr_ne_empty _ _ (jsOr_ne_empty _ _ hf)

lemma runCatalogSteps_cons (s : QueryState) (st : CatalogStep)
    (rest : List CatalogStep) :
    runCatalogSteps s (st :: rest) = runCatalogSteps (runCatalogStep s st) rest := rfl

lemma proj_runCatalogSteps_of_filter_nil {β : Type} (f : QueryState → β)
    (p : CatalogStep → Bool)
    (hframe : ∀ s st, p st = false → f (runCatalogStep s st) = f s) :
    ∀ (steps : List CatalogStep) (s : QueryState),
      steps.filter p = [] → f (runCatalogSteps s steps) = f s := by
  intro steps
  induction steps with
  | nil => intro s _; rfl
  | cons st rest ih =>
      intro s h
      rw [List.filter_cons] at h
      cases hps : p st with
      | true => rw [if_pos hps] at h; exact absurd h (List.cons_ne_nil _ _)
      | false =>
          rw [if_neg (by simp [hps])] at h
          rw [runCatalogSteps_cons, ih _ h, hframe s st hps]

lemma proj_runCatalogSteps_of_filter_single {β : Type} (f : QueryState → β)
    (p : CatalogStep → Bool)
    (hframe : ∀ s st, p st = false → f (runCatalogStep s st) = f s)
    (target : CatalogStep) (v : β)
    (htv : ∀ s, f (runCatalogStep s target) = v) :
    ∀ (steps : List CatalogStep) (s : QueryState),
      steps.filter p = [target] → f (runCatalogSteps s steps) = v := by
  intro steps
  induction steps with
  | nil => intro s h; simp at h
  | cons st rest ih =>
      intro s h
      rw [List.filter_cons] at h
      cases hps : p st with
      | true =>
          rw [if_pos hps] at h
          have hst : st = target := (List.cons.inj h).1
          have hrest : rest.filter p = [] := (List.cons.inj h).2
          rw [runCatalogSteps_cons,
            proj_runCatalogSteps_of_filter_nil f p hframe rest _ hrest, hst]
          exact htv s
      | false =>
          rw [if_neg (by simp [hps])] at h
          rw [runCatalogSteps_cons]
          exact ih _ h

lemma models_frame (s : QueryState) (st : CatalogStep)
    (h : st.isModels = false) : (runCatalogStep s st).models = s.models := by
  cases st with
  | stepModels r => simp [CatalogStep.isModels] at h
  | stepJobs r => cases r <;> rfl
  | stepKbs r => cases r <;> rfl

lemma jobs_frame (s : QueryState) (st : CatalogStep)
    (h : st.isJobs = false) : (runCatalogStep s st).jobs = s.jobs := by
  cases st with
  | stepModels r => cases r <;> rfl
  | stepJobs r => simp [CatalogStep.isJobs] at h
  | stepKbs r => cases r <;> rfl

lemma kbs_frame (s : QueryState) (st : CatalogStep)
    (h : st.isKbs = false) : (runCatalogStep s st).knowledgeBases = s.knowledgeBases := by
  cases st with
  | stepModels r => cases r <;> rfl
  | stepJobs r => cases r <;> rfl
  | stepKbs r => simp [CatalogStep.isKbs] at h

/-- Claim C1 counterexample: executeQuery does not append a history entry
on the transport-failure path.  Starting from the initial store state, a
call whose underlying API call throws leaves the history at length 0, not
length 1 as the claim requires of every call. -/
theorem executeQuery_err_appends_no_entry :
    ¬ ((executeQuery {} "SELECT 1" 0 (ApiResult.err eBoom)).1.queryHistory.length
        = ({} : QueryState).queryHistory.length + 1) := by
  decide

/-- Claim C1 (amended): executeQuery(q) appends exactly one history entry
when the server returns a result — the entry carries the query text q and
success = (result kind ≠ error) — and appends no entry at all when the
transport fails (the synthesized local error-kind result is not recorded
in the history). -/
theorem executeQuery_history_contract (s : QueryState) (q : String) (now : Nat)
    (res : QueryResult) (e : JsError) :
    (executeQuery s q now (ApiResult.ok res)).1.queryHistory
      = s.queryHistory ++
        [({ query := q, timestamp := now,
            success := res.type != QueryResultType.error } : HistoryEntry)] ∧
    (executeQuery s q now (ApiResult.err e)).1.queryHistory = s.queryHistory := by
  constructor
  · simp only [executeQuery]
    split <;> rfl
  · rfl

/-- Claim C2: the SQL preview renders the exact CREATE TABLE statement for
the two reference inputs (no predicate and no limit; two columns with a
WHERE line then a LIMIT line, a single terminating semicolon), and any
input missing the target name, the source database or the source table
yields the fill-in-the-form placeholder. -/
theorem sqlPreview_spec :
    sqlPreview "cached_data" "mysql_db" "orders" [] "" none
      = "CREATE TABLE mindsdb.cached_data AS\nSELECT *\nFROM mysql_db.orders;" ∧
    sqlPreview "cached_data" "mysql_db" "orders" ["id", "amount"] "amount > 100" (some 50)
      = "CREATE TABLE mindsdb.cached_data AS\nSELECT id, amount\nFROM mysql_db.orders\nWHERE amount > 100\nLIMIT 50;" ∧
    ∀ tn db tb cols w lim, (tn = "" ∨ db = "" ∨ tb = "") →
      sqlPreview tn db tb cols w lim = "-- Fill in the form to generate SQL" := by
  refine ⟨rfl, rfl, ?_⟩
  intro tn db tb cols w lim h
  unfold sqlPreview
  rw [if_pos h]

/-- Claim C2 witness: the placeholder branch of sqlPreview_spec applied at
an input with an empty target name. -/
theorem sqlPreview_spec_witness :
    sqlPreview "" "mysql_db" "orders" [] "" none
      = "-- Fill in the form to generate SQL" :=
  sqlPreview_spec.2.2 "" "mysql_db" "orders" [] "" none (Or.inl rfl)

/-- Claim C4: when the transport fails during executeQuery, the action
returns (and stores as queryResult) a synthesized error-kind result with
empty columns, empty rows, row count 0 and the normalized failure message,
and copies that message into the store error field.  The embedding of
executeQuery is total, so no exception escapes the store boundary. -/
theorem executeQuery_transport_failure (s : QueryState) (q : String) (now : Nat)
    (e : JsError) :
    (executeQuery s q now (ApiResult.err e)).2
      = { type := QueryResultType.error, columns := [], data := [], row_count := 0,
          error := some (errDetailMsg e "Failed to execute query"),
          execution_time := none } ∧
    (executeQuery s q now (ApiResult.err e)).1.queryResult
      = some ((executeQuery s q now (ApiResult.err e)).2) ∧
    (executeQuery s q now (ApiResult.err e)).1.error
      = some (errDetailMsg e "Failed to execute query") := by
  have hne : errDetailMsg e "Failed to execute query" ≠ "" :=
    errDetailMsg_ne_empty e _ (by decide)
  refine ⟨?_, rfl, rfl⟩
  simp only [executeQuery]
  rw [if_neg hne]

/-- Claim C7: the lastQueries view equals the ten most recent history
entries, most recent first — its reverse is a suffix of the log and its
length is min(N,10).  The view is a pure function of the state, so the
underlying log is untouched by computing it. -/
theorem lastQueries_spec (s : QueryState) :
    lastQueries s = s.queryHistory.reverse.take 10 ∧
    (lastQueries s).length = min s.queryHistory.length 10 ∧
    (lastQueries s).reverse <:+ s.queryHistory := by
  refine ⟨List.take_reverse.symm, ?_, ?_⟩
  · simp only [lastQueries, List.length_reverse, List.length_drop]
    omega
  · simp only [lastQueries, List.reverse_reverse]
    exact List.drop_suffix _ _

/-- Claim C3: with an active datasource, selectTable updates tableSchema
and tableData together when the joined schema/sample fetch succeeds, and
updates neither when it fails — both keep their prior values and the
error field receives the normalized message.  No state with exactly one
of the two updated is reachable. -/
theorem selectTable_both_or_neither (s : DatasourcesState) (ds : DataSource)
    (t : String) (sch : TableSchema) (dat : TableData) (e : JsError)
    (h : s.selectedDatasource = some ds) :
    ((selectTable s t (ApiResult.ok (sch, dat))).1.tableSchema = some sch ∧
     (selectTable s t (ApiResult.ok (sch, dat))).1.tableData = some dat) ∧
    ((selectTable s t (ApiResult.err e)).1.tableSchema = s.tableSchema ∧
     (selectTable s t (ApiResult.err e)).1.tableData = s.tableData ∧
     (selectTable s t (ApiResult.err e)).1.error
       = some (errDetailMsg e "Failed to fetch table info")) := by
  refine ⟨⟨?_, ?_⟩, ?_, ?_, ?_⟩ <;> simp [selectTable, beginAction, h]

/-- Claim C3 witness: selectTable_both_or_neither at a concrete state with
an active datasource and a successful joined fetch. -/
theorem selectTable_both_or_neither_witness :
    (selectTable stateWithSelection "orders"
        (ApiResult.ok (schSample, datSample))).1.tableSchema = some schSample :=
  (selectTable_both_or_neither stateWithSelection dsSample "orders" schSample
      datSample eBoom rfl).1.1

/-- Claim C5: a successful deleteDatasource(name) leaves no catalog entry
named name, clears selection, tables, selected table, schema and sample
data in the same transition when the deleted source was the active
selection, and returns true; a failed call returns false and leaves the
catalog unchanged. -/
theorem deleteDatasource_spec (s : DatasourcesState) (name ack : String)
    (e : JsError) :
    ((deleteDatasource s name (ApiResult.ok ack)).2 = true ∧
     (∀ ds ∈ (deleteDatasource s name (ApiResult.ok ack)).1.datasources,
        ds.name ≠ name) ∧
     (∀ ds, s.selectedDatasource = some ds → ds.name = name →
       (deleteDatasource s name (ApiResult.ok ack)).1.selectedDatasource = none ∧
       (deleteDatasource s name (ApiResult.ok ack)).1.tables = [] ∧
       (deleteDatasource s name (ApiResult.ok ack)).1.selectedTable = none ∧
       (deleteDatasource s name (ApiResult.ok ack)).1.tableSchema = none ∧
       (deleteDatasource s name (ApiResult.ok ack)).1.tableData = none)) ∧
    ((deleteDatasource s name (ApiResult.err e)).2 = false ∧
     (deleteDatasource s name (ApiResult.err e)).1.datasources = s.datasources) := by
  refine ⟨⟨rfl, ?_, ?_⟩, rfl, rfl⟩
  · intro ds hds
    have hds2 : ds ∈ s.datasources.filter (fun d => d.name != name) := by
      revert hds
      simp only [deleteDatasource, beginAction]
      split <;> (intro hds; simpa using hds)
    have hprop := List.of_mem_filter hds2
    simpa using hprop
  · intro ds h1 h2
    refine ⟨?_, ?_, ?_, ?_, ?_⟩ <;>
      simp [deleteDatasource, beginAction, selectedNameIs, h1, h2]

/-- Claim C5 witness: deleteDatasource_spec at a concrete state whose
active selection is the deleted source. -/
theorem deleteDatasource_spec_witness :
    (deleteDatasource stateBeforeDelete "mysql_db"
        (ApiResult.ok "deleted")).1.selectedDatasource = none :=
  ((deleteDatasource_spec stateBeforeDelete "mysql_db" "deleted" eBoom).1.2.2
      dsSample rfl rfl).1

/-- Claim C6 counterexample: fetchTypes is a mutating operation of the
datasource store, yet its prologue neither raises the busy flag nor
clears the prior error — starting from a state with loading = false and a
stale error, the flag stays false on entry and the stale error survives
the whole successful call. -/
theorem fetchTypes_no_busy_no_clear :
    ¬ ((fetchTypesStart staleErrorState).loading = true ∧
       (fetchTypesStart staleErrorState).error = none) ∧
    (fetchTypes staleErrorState (ApiResult.ok [])).error = some "boom" ∧
    (fetchTypes staleErrorState (ApiResult.ok [])).loading = false := by
  decide

/-- Claim C6 (amended): fetchDatasources, createDatasource,
deleteDatasource, fetchTables and — when a datasource is selected —
selectTable each raise the busy flag and clear the prior error in their
synchronous prologue and lower the flag on completion; fetchTypes does
neither: its prologue is the identity, it never touches the busy flag,
and a successful call leaves the prior error in place. -/
theorem datasourceStore_busy_error_contract (s : DatasourcesState)
    (nm dsn t : String) (eng : String) (params : List (String × String))
    (ds : DataSource)
    (r0 : ApiResult (List DataSourceTypeConfig))
    (r1 : ApiResult (List DataSource)) (r2 : ApiResult DataSource)
    (r3 : ApiResult String) (r4 : ApiResult (List String))
    (r5 : ApiResult (TableSchema × TableData)) :
    ((fetchDatasourcesStart s).loading = true ∧
      (fetchDatasourcesStart s).error = none ∧
      (fetchDatasources s r1).loading = false) ∧
    ((createDatasourceStart s).loading = true ∧
      (createDatasourceStart s).error = none ∧
      (createDatasource s nm eng params r2).1.loading = false) ∧
    ((deleteDatasourceStart s).loading = true ∧
      (deleteDatasourceStart s).error = none ∧
      (deleteDatasource s nm r3).1.loading = false) ∧
    ((fetchTablesStart s).loading = true ∧
      (fetchTablesStart s).error = none ∧
      (fetchTables s dsn r4).loading = false) ∧
    (s.selectedDatasource = some ds →
      ((selectTableStart s t).loading = true ∧
        (selectTableStart s t).error = none ∧
        (selectTable s t r5).1.loading = false)) ∧
    (fetchTypesStart s = s ∧
      (fetchTypes s r0).loading = s.loading ∧
      ∀ tys, r0 = ApiResult.ok tys → (fetchTypes s r0).error = s.error) := by
  refine ⟨⟨rfl, rfl, ?_⟩, ⟨rfl, rfl, ?_⟩, ⟨rfl, rfl, ?_⟩, ⟨rfl, rfl, ?_⟩,
    ?_, rfl, ?_, ?_⟩
  · cases r1 <;> rfl
  · cases r2 <;> rfl
  · cases r3 <;> rfl
  · cases r4 <;> rfl
  · intro h
    refine ⟨?_, ?_, ?_⟩
    · simp [selectTableStart, beginAction, h]
    · simp [selectTableStart, beginAction, h]
    · cases r5 with
      | ok v =>
          obtain ⟨sch, dat⟩ := v
          simp [selectTable, beginAction, h]
      | err e => simp [selectTable, beginAction, h]
  · cases r0 <;> rfl
  · intro tys hok
    subst hok
    rfl

/-- Claim C6 witness: the amended busy/error contract applied at a
concrete state with an active selection, extracting the selectTable
prologue clause. -/
theorem datasourceStore_busy_error_contract_witness :
    (selectTableStart stateWithSelection "orders").loading = true :=
  ((datasourceStore_busy_error_contract stateWithSelection "a" "b" "orders" "mysql"
      [] dsSample (ApiResult.err eBoom) (ApiResult.err eBoom) (ApiResult.err eBoom)
      (ApiResult.err eBoom) (ApiResult.err eBoom) (ApiResult.err eBoom)).2.2.2.2.1
    rfl).1

/-- Claim C8: running the three catalog refreshes in any arrival order —
in particular with one of them failing — leaves each catalog whose fetch
succeeded holding exactly its fetched list, unaffected by the other
outcomes. -/
theorem catalogFetches_independent (s : QueryState) (steps : List CatalogStep)
    (rm : ApiResult (List Model)) (rj : ApiResult (List Job))
    (rk : ApiResult (List KnowledgeBase))
    (hperm : steps.Perm
      [CatalogStep.stepModels rm, CatalogStep.stepJobs rj, CatalogStep.stepKbs rk]) :
    (∀ ms, rm = ApiResult.ok ms → (runCatalogSteps s steps).models = ms) ∧
    (∀ js, rj = ApiResult.ok js → (runCatalogSteps s steps).jobs = js) ∧
    (∀ ks, rk = ApiResult.ok ks → (runCatalogSteps s steps).knowledgeBases = ks) := by
  refine ⟨?_, ?_, ?_⟩
  · intro ms hm
    subst hm
    have hfil := hperm.filter CatalogStep.isModels
    simp only [List.filter_cons, List.filter_nil, CatalogStep.isModels,
      if_pos, if_neg, Bool.false_eq_true, ite_true, ite_false] at hfil
    exact proj_runCatalogSteps_of_filter_single QueryState.models
      CatalogStep.isModels models_frame (CatalogStep.stepModels (ApiResult.ok ms))
      ms (fun _ => rfl) steps s
      (List.perm_singleton.mp hfil)
  · intro js hj
    subst hj
    have hfil := hperm.filter CatalogStep.isJobs
    simp only [List.filter_cons, List.filter_nil, CatalogStep.isJobs,
      if_pos, if_neg, Bool.false_eq_true, ite_true, ite_false] at hfil
    exact proj_runCatalogSteps_of_filter_single QueryState.jobs
      CatalogStep.isJobs jobs_frame (CatalogStep.stepJobs (ApiResult.ok js))
      js (fun _ => rfl) steps s
      (List.perm_singleton.mp hfil)
  · intro ks hk
    subst hk
    have hfil := hperm.filter CatalogStep.isKbs
    simp only [List.filter_cons, List.filter_nil, CatalogStep.isKbs,
      if_pos, if_neg, Bool.false_eq_true, ite_true, ite_false] at hfil
    exact proj_runCatalogSteps_of_filter_single QueryState.knowledgeBases
      CatalogStep.isKbs kbs_frame (CatalogStep.stepKbs (ApiResult.ok ks))
      ks (fun _ => rfl) steps s
      (List.perm_singleton.mp hfil)

/-- Claim C8 witness: a concrete order in which the knowledge-base fetch
fails first and the other two succeed afterwards; the models catalog
holds exactly the fetched list. -/
theorem catalogFetches_independent_witness :
    (runCatalogSteps {} [CatalogStep.stepKbs (ApiResult.err eBoom),
        CatalogStep.stepModels (ApiResult.ok [mSample]),
        CatalogStep.stepJobs (ApiResult.ok [])]).models = [mSample] :=
  (catalogFetches_independent {} _ (ApiResult.ok [mSample]) (ApiResult.ok [])
      (ApiResult.err eBoom) (by decide)).1 [mSample] rfl

/-- Claim C9: calling selectTable with no selected datasource returns the
state unchanged in every field and issues no HTTP request. -/
theorem selectTable_no_datasource_noop (s : DatasourcesState) (t : String)
    (api : ApiResult (TableSchema × TableData))
    (h : s.selectedDatasource = none) :
    selectTable s t api = (s, []) := by
  simp [selectTable, h]

/-- Claim C9 witness: selectTable_no_datasource_noop at the initial store
state. -/
theorem selectTable_no_datasource_noop_witness :
    selectTable {} "orders" (ApiResult.err eBoom) = ({}, []) :=
  selectTable_no_datasource_noop {} "orders" (ApiResult.err eBoom) rfl

end RoboData
